import Mathlib

/-!
Verification of the response-relay engine of `relay/channel/openai/main.go`
(chat-api).

The development is a shallow embedding of the two entry points of that file:

* `StreamHandler` — modelled by `producerOutput` / `streamResponseText`.
  The `bufio.Scanner` frame splitter yields the newline-delimited lines of
  the upstream body; the model takes that line sequence (`List String`) as
  its input.  The producer goroutine's loop body is `processLine`; the
  whole loop is `producerRunFrom`.  The strings handed to `dataChan` are
  recorded as a provenance-tagged trace (`OutFrame`): `forwarded s` is the
  unmodified upstream line `s`, `injected fc` is the frame built by
  `GenerateFixedContentMessage` (its wire form is `"data: " ++ json` of
  `generateFixedContentMessage uuid ts fc` for a fresh uuid/timestamp, a
  JSON object, hence never equal to the terminal marker), and `done` is the
  session-owned `doneSignal = "data: [DONE]"` sent after the scanner loop.
  The consumer's per-frame rewriting (truncation of `"data: [DONE]"`
  prefixed frames to 12 characters, stripping of one trailing `"\r"`) is
  `normalizeFrame`.

  Go slices strings by bytes (`data[:6]`); the model slices by characters
  (`strTake`).  The two agree on every comparison the code makes, because
  the compared literals (`"data: "`, `"[DONE]"`, `"data: [DONE]"`) are
  ASCII: a byte slice equals such a literal iff the character slice does.

  JSON unmarshalling of the two stream shapes is external to the file
  (`ChatCompletionsStreamResponse` / `CompletionsStreamResponse` live in
  the model package); it is abstracted as the `Decoders` parameter mapping
  the payload after `"data: "` to the parsed choice list, `none` meaning
  `json.Unmarshal` returned an error.

* `Handler` — modelled by `handler`.  The body has already been read,
  closed and unmarshalled (failures of those steps return earlier and no
  claim depends on them); `handler` receives the parse result
  (`SlimTextResponse`).  `Message.StringContent` and `json.Marshal` of a
  string value are external helpers of the model package, abstracted as
  the parameters `sc` and `ms`; `CountTokenText` is the parameter `ct`.
  Modelled from the spec: the gin response writer defers the actual header
  flush to the first body write, so headers set after `WriteHeader` are
  still sent; the client-visible effect of the write sequence is the
  `ClientWrite` record (status, first value of every header, and the
  structure that is re-serialized as the body).
-/

namespace ChatApi

/-- Character-level version of Go's `s[:n]` (agrees with the byte-level
slice on every ASCII comparison made by the code). -/
def strTake (n : Nat) (s : String) : String := ⟨s.data.take n⟩

/-- Character-level version of Go's `s[n:]`. -/
def strDrop (n : Nat) (s : String) : String := ⟨s.data.drop n⟩

/-- One choice of `ChatCompletionsStreamResponse`: `Delta.Content` and the
nullable `FinishReason`. -/
structure ChatStreamChoice where
  content : String
  finishReason : Option String
deriving DecidableEq, Repr

/-- One choice of `CompletionsStreamResponse`: `Text` and the non-nullable
`FinishReason`. -/
structure CompletionStreamChoice where
  text : String
  finishReason : String
deriving DecidableEq, Repr

/-- The two `json.Unmarshal` shapes used by the stream loop, abstracted:
`none` models an unmarshal error (the frame is dropped). -/
structure Decoders where
  chat : String → Option (List ChatStreamChoice)
  completions : String → Option (List CompletionStreamChoice)

/-- `relayMode` values distinguished by the `switch`; `other` covers every
relay-mode constant with no case in it. -/
inductive RelayMode where
  | chatCompletions
  | completions
  | other
deriving DecidableEq, Repr

/-- Producer-goroutine state: `responseText` accumulator and the
`needInjectFixedMessageBeforeNextSend` flag. -/
structure PState where
  responseText : String
  needInject : Bool
deriving DecidableEq, Repr

/-- A string handed to `dataChan`, tagged with its provenance: an upstream
line forwarded unmodified, the synthetic fixed-content frame (wire form
`"data: " ++ json` of `generateFixedContentMessage`), or the session's
final `doneSignal = "data: [DONE]"`. -/
inductive OutFrame where
  | forwarded (s : String)
  | injected (fixedContent : String)
  | done
deriving DecidableEq, Repr

/-- `delta` object of the message built by `GenerateFixedContentMessage`. -/
structure FixedDelta where
  content : String
  role : String
deriving DecidableEq, Repr

/-- Single choice of the message built by `GenerateFixedContentMessage`. -/
structure FixedChoice where
  index : Nat
  finishReason : String
  delta : FixedDelta
deriving DecidableEq, Repr

/-- The JSON object built by `GenerateFixedContentMessage` (before
`json.Marshal`). -/
structure FixedContentMessage where
  id : String
  object : String
  created : Int
  choices : List FixedChoice
deriving DecidableEq, Repr

/-- `GenerateFixedContentMessage`: prepends `"\n\n"` to the fixed content
and wraps it in a single-choice chat-completion chunk with
`finish_reason = "stop"` and empty role.  `uuid` is `common.GetUUID()`
and `ts` is `common.GetTimestamp()`. -/
def generateFixedContentMessage (uuid : String) (ts : Int)
    (fixedContent : String) : FixedContentMessage :=
  { id := "chatcmpl-" ++ uuid
    object := "chat.completion"
    created := ts
    choices := [{ index := 0
                  finishReason := "stop"
                  delta := { content := "\n\n" ++ fixedContent, role := "" } }] }

/-- The inner `for _, choice := range streamResponse.Choices` loop of the
chat-completions case: append each delta content to the accumulator and
raise the flag on `FinishReason == "stop"`. -/
def foldChatChoices (st : PState) (cs : List ChatStreamChoice) : PState :=
  cs.foldl
    (fun s c =>
      { responseText := s.responseText ++ c.content
        needInject := if c.finishReason = some "stop" then true else s.needInject })
    st

/-- The inner choice loop of the completions case. -/
def foldCompletionChoices (st : PState) (cs : List CompletionStreamChoice) : PState :=
  cs.foldl
    (fun s c =>
      { responseText := s.responseText ++ c.text
        needInject := if c.finishReason = "stop" then true else s.needInject })
    st

/-- Concatenation of the delta contents of a chat choice list, in order. -/
def textOfChatChoices (cs : List ChatStreamChoice) : String :=
  cs.foldl (fun t c => t ++ c.content) ""

/-- Concatenation of the text fragments of a completions choice list. -/
def textOfCompletionChoices (cs : List CompletionStreamChoice) : String :=
  cs.foldl (fun t c => t ++ c.text) ""

/-- The `needInjectFixedMessageBeforeNextSend` check at the top of the loop
body: while the flag is up and the fixed content is non-empty, send the
synthetic frame and reset the flag.  (The reset sits inside the
`fixedContent != ""` branch, exactly as in the source.) -/
def injectStep (fixedContent : String) (st : PState) : PState × List OutFrame :=
  if st.needInject then
    if fixedContent ≠ "" then
      ({ st with needInject := false }, [OutFrame.injected fixedContent])
    else (st, [])
  else (st, [])

/-- The `case constant.RelayModeChatCompletions` arm of the `switch`:
unmarshal (dropping the frame on error, `continue`), fold the choices,
then the `if !needInjectFixedMessageBeforeNextSend { dataChan <- data }`
send at the bottom of the loop. -/
def chatCase (dec : Decoders) (st : PState) (data : String) :
    PState × List OutFrame :=
  match dec.chat (strDrop 6 data) with
  | none => (st, [])
  | some cs =>
    let st2 := foldChatChoices st cs
    (st2, if st2.needInject then [] else [OutFrame.forwarded data])

/-- The `case constant.RelayModeCompletions` arm of the `switch`, with the
send at the bottom of the loop. -/
def completionsCase (dec : Decoders) (st : PState) (data : String) :
    PState × List OutFrame :=
  match dec.completions (strDrop 6 data) with
  | none => (st, [])
  | some cs =>
    let st2 := foldCompletionChoices st cs
    (st2, if st2.needInject then [] else [OutFrame.forwarded data])

/-- Steps 3–4 of the loop body: the `data[:6] == "data: "` block (skipping
`"data: [DONE]"`, decoding per relay mode, folding the choices) followed by
the `if !needInjectFixedMessageBeforeNextSend { dataChan <- data }` send. -/
def parseForward (mode : RelayMode) (dec : Decoders) (st : PState)
    (data : String) : PState × List OutFrame :=
  if strTake 6 data = "data: " then
    if data = "data: [DONE]" then (st, [])
    else
      match mode with
      | RelayMode.chatCompletions => chatCase dec st data
      | RelayMode.completions => completionsCase dec st data
      | RelayMode.other =>
        (st, if st.needInject then [] else [OutFrame.forwarded data])
  else
    (st, if st.needInject then [] else [OutFrame.forwarded data])

/-- One iteration of the producer goroutine's `for scanner.Scan()` loop:
length filter, literal-prefix filter, pending-injection check, then the
parse/forward block. -/
def processLine (mode : RelayMode) (dec : Decoders) (fixedContent : String)
    (st : PState) (data : String) : PState × List OutFrame :=
  if data.length < 6 then (st, [])
  else if strTake 6 data ≠ "data: " ∧ strTake 6 data ≠ "[DONE]" then (st, [])
  else
    ((parseForward mode dec (injectStep fixedContent st).1 data).1,
     (injectStep fixedContent st).2 ++
       (parseForward mode dec (injectStep fixedContent st).1 data).2)

/-- The producer loop over the remaining lines, from a given state,
collecting everything sent to `dataChan`. -/
def producerRunFrom (mode : RelayMode) (dec : Decoders) (fixedContent : String)
    (st : PState) : List String → PState × List OutFrame
  | [] => (st, [])
  | l :: ls =>
    let r := processLine mode dec fixedContent st l
    let rest := producerRunFrom mode dec fixedContent r.1 ls
    (rest.1, r.2 ++ rest.2)

/-- The producer loop from the initial state (`responseText = ""`, flag
down). -/
def producerRun (mode : RelayMode) (dec : Decoders) (fixedContent : String)
    (lines : List String) : PState × List OutFrame :=
  producerRunFrom mode dec fixedContent ⟨"", false⟩ lines

/-- Everything sent to `dataChan` for a whole session: the loop's frames
followed by the unconditional `doneSignal`. -/
def producerOutput (mode : RelayMode) (dec : Decoders) (fixedContent : String)
    (lines : List String) : List OutFrame :=
  (producerRun mode dec fixedContent lines).2 ++ [OutFrame.done]

/-- The accumulated `responseText` returned by `StreamHandler` (on the
path where closing the body succeeds). -/
def streamResponseText (mode : RelayMode) (dec : Decoders) (fixedContent : String)
    (lines : List String) : String :=
  (producerRun mode dec fixedContent lines).1.responseText

/-- Go's `strings.TrimSuffix(data, "\r")`: drop one trailing `"\r"`. -/
def trimSuffixCR (s : String) : String :=
  if s.data.getLast? = some '\r' then ⟨s.data.dropLast⟩ else s

/-- The consumer's per-frame rewriting before `c.Render`: truncate frames
beginning with `"data: [DONE]"` to the canonical 12 characters, then strip
one trailing carriage return. -/
def normalizeFrame (s : String) : String :=
  trimSuffixCR (if strTake 12 s = "data: [DONE]" then strTake 12 s else s)

/-- Whether the client receives this frame as the canonical terminal
marker `"data: [DONE]"`.  An injected frame's wire form is
`"data: {" ++ …`, a JSON object, never the marker. -/
def isCanonicalDoneFrame : OutFrame → Bool
  | OutFrame.done => true
  | OutFrame.forwarded s => normalizeFrame s == "data: [DONE]"
  | OutFrame.injected _ => false

/-- Whether the client receives this frame as a terminal marker in either
spelling of the frame grammar (the event-payload spelling
`"data: [DONE]"` or the bare sentinel `"[DONE]"`). -/
def isTerminalMarkerFrame : OutFrame → Bool
  | OutFrame.done => true
  | OutFrame.forwarded s =>
      normalizeFrame s == "data: [DONE]" || normalizeFrame s == "[DONE]"
  | OutFrame.injected _ => false

/-- Synthetic-frame recognizer. -/
def isInjectedFrame : OutFrame → Bool
  | OutFrame.injected _ => true
  | _ => false

/-- Number of synthetic injected frames in a trace. -/
def countInjected (out : List OutFrame) : Nat :=
  (out.filter isInjectedFrame).length

/-- Number of frames the client receives as the canonical terminal
marker. -/
def countCanonicalDone (out : List OutFrame) : Nat :=
  (out.filter isCanonicalDoneFrame).length

/-- The payload after `"data: "` of this line (if the line carries one)
contains no choice with finish reason `"stop"` under the chat decoder. -/
def chatLineStopFree (dec : Decoders) (l : String) : Prop :=
  ∀ cs, dec.chat (strDrop 6 l) = some cs →
    ∀ c ∈ cs, c.finishReason ≠ some "stop"

/-- A well-formed chat-mode delta line that carries no `"stop"`: it has the
`"data: "` literal in front, is not the terminal marker, and its payload
decodes to choices none of which finishes with `"stop"`. -/
def wfNoStopChatLine (dec : Decoders) (l : String) : Prop :=
  strTake 6 l = "data: " ∧ l ≠ "data: [DONE]" ∧
    ∃ cs, dec.chat (strDrop 6 l) = some cs ∧
      cs.any (fun c => c.finishReason == some "stop") = false

/-- The `responseText` contribution of a chat-mode payload. -/
def chatDelta (dec : Decoders) (data : String) : String :=
  match dec.chat (strDrop 6 data) with
  | none => ""
  | some cs => textOfChatChoices cs

/-- The `responseText` contribution of a completions-mode payload. -/
def completionsDelta (dec : Decoders) (data : String) : String :=
  match dec.completions (strDrop 6 data) with
  | none => ""
  | some cs => textOfCompletionChoices cs

/-- The `responseText` contribution of a single line: mirrors the branch
structure of `parseForward`. -/
def parseDelta (mode : RelayMode) (dec : Decoders) (data : String) : String :=
  if strTake 6 data = "data: " then
    if data = "data: [DONE]" then ""
    else
      match mode with
      | RelayMode.chatCompletions => chatDelta dec data
      | RelayMode.completions => completionsDelta dec data
      | RelayMode.other => ""
  else ""

/-- The `responseText` contribution of a single line including the two
entry filters: mirrors the branch structure of `processLine`. -/
def deltaOfLine (mode : RelayMode) (dec : Decoders) (data : String) : String :=
  if data.length < 6 then ""
  else if strTake 6 data ≠ "data: " ∧ strTake 6 data ≠ "[DONE]" then ""
  else parseDelta mode dec data

/-- `Usage`: token accounting of the full-body response. -/
structure HUsage where
  promptTokens : Int
  completionTokens : Int
  totalTokens : Int
deriving DecidableEq, Repr

/-- The `Error` record of `SlimTextResponse`. -/
structure HError where
  type : String
  message : String
deriving DecidableEq, Repr

/-- The message of a full-body choice: role plus the raw JSON bytes of the
content field (`json.RawMessage`). -/
structure HMessage where
  role : String
  content : String
deriving DecidableEq, Repr

/-- One choice of the unmarshalled full body. -/
structure TextResponseChoice where
  index : Int
  message : HMessage
  finishReason : String
deriving DecidableEq, Repr

/-- `SlimTextResponse`: the unmarshalled non-streaming body. -/
structure SlimTextResponse where
  choices : List TextResponseChoice
  usage : HUsage
  error : HError
deriving DecidableEq, Repr

/-- `ErrorWithStatusCode` as returned by `Handler`. -/
structure ErrorWithStatusCode where
  error : HError
  statusCode : Int
deriving DecidableEq, Repr

/-- Modelled from the spec: the structured error-wrapping constructor
`wrapError(err, code, httpStatus)` (`ErrorWrapper` lives outside this
file); only the code and status matter to the claims. -/
def wrapError (code : String) (status : Int) : ErrorWithStatusCode :=
  { error := { type := "one_api_error", message := code }, statusCode := status }

/-- The `(*ErrorWithStatusCode, *Usage, string)` triple `Handler` returns. -/
structure HandlerReturn where
  err : Option ErrorWithStatusCode
  usage : Option HUsage
  text : String
deriving DecidableEq, Repr

/-- Modelled from the spec: the client-visible effect of the write
sequence on the success path — the original status code, the first value
of every upstream header, and the `SlimTextResponse` structure that is
re-serialized as the body (gin defers the header flush to the first body
write, so headers set after `WriteHeader` are included). -/
structure ClientWrite where
  status : Int
  headers : List (String × String)
  body : SlimTextResponse
deriving DecidableEq, Repr

/-- The `for _, choice := range textResponse.Choices` loop computing
`responseText`: it keeps only the last choice's `StringContent()` (empty
when there are no choices). -/
def lastChoiceText (sc : HMessage → String) (cs : List TextResponseChoice) : String :=
  cs.foldl (fun _ c => sc c.message) ""

/-- The fixed-content injection loop: for every choice, re-encode
`StringContent() ++ "\n\n" ++ fixedContent` as a JSON string value (`ms`,
abstracting `json.Marshal` of a string) and store it back into the
choice's content; an encode failure aborts the whole relay. -/
def injectChoices (sc : HMessage → String) (ms : String → Option String)
    (fixedContent : String) :
    List TextResponseChoice → Option (List TextResponseChoice)
  | [] => some []
  | c :: cs =>
    match ms (sc c.message ++ "\n\n" ++ fixedContent) with
    | none => none
    | some enc =>
      match injectChoices sc ms fixedContent cs with
      | none => none
      | some rest =>
        some ({ c with message := { c.message with content := enc } } :: rest)

/-- The fixed-content injection guard of `Handler`: when `fixedContent` is
non-empty, rewrite every choice through `injectChoices`; otherwise the
body is left untouched. -/
def injectedResponse (sc : HMessage → String) (ms : String → Option String)
    (fixedContent : String) (tr : SlimTextResponse) : Option SlimTextResponse :=
  if fixedContent ≠ "" then
    (injectChoices sc ms fixedContent tr.choices).map
      (fun cs => { tr with choices := cs })
  else some tr

/-- The usage back-fill of `Handler`: when upstream reported zero total
tokens, recompute usage from the prompt-token count and `CountTokenText`
of the (pre-injection) response text; otherwise trust upstream's usage
verbatim. -/
def backfillUsage (ct : String → String → Int) (promptTokens : Int)
    (model : String) (responseText : String)
    (tr1 : SlimTextResponse) : SlimTextResponse :=
  if tr1.usage.totalTokens = 0 then
    { tr1 with
      usage := { promptTokens := promptTokens
                 completionTokens := ct responseText model
                 totalTokens := promptTokens + ct responseText model } }
  else tr1

/-- `Handler` from the point where the body has been unmarshalled into
`textResponse`: upstream-error propagation, last-choice text extraction
(before injection), fixed-content injection, usage back-fill when the
upstream total is zero, and the final write (original status, first value
of every header, modified body).  Note `json.Marshal` of the round-tripped
structure cannot fail (every content field holds valid JSON), so the
re-marshal error branch of the source is unreachable and not modelled. -/
def handler (sc : HMessage → String) (ms : String → Option String)
    (ct : String → String → Int) (statusCode : Int)
    (headers : List (String × List String)) (promptTokens : Int)
    (model : String) (fixedContent : String)
    (textResponse : SlimTextResponse) : HandlerReturn × Option ClientWrite :=
  if textResponse.error.type ≠ "" then
    ({ err := some { error := textResponse.error, statusCode := statusCode }
       usage := none, text := "" }, none)
  else
    match injectedResponse sc ms fixedContent textResponse with
    | none =>
      ({ err := some (wrapError "encode_modified_content_failed" 500)
         usage := none, text := "" }, none)
    | some tr1 =>
      let tr2 := backfillUsage ct promptTokens model
        (lastChoiceText sc textResponse.choices) tr1
      ({ err := none, usage := some tr2.usage
         text := lastChoiceText sc textResponse.choices },
       some { status := statusCode
              headers := headers.map (fun kv => (kv.1, kv.2.headD ""))
              body := tr2 })

/-- Concrete chat decoder used by the concrete-input theorems: payload
`"h1"` is a delta `"Hi"`, `"h2"` is a delta `" there"` finishing with
`"stop"`, `"s"` is an empty delta finishing with `"stop"`, `"d"` is a
delta `"more"`; everything else fails to unmarshal. -/
def testDec : Decoders :=
  { chat := fun s =>
      if s = "h1" then some [{ content := "Hi", finishReason := none }]
      else if s = "h2" then some [{ content := " there", finishReason := some "stop" }]
      else if s = "s" then some [{ content := "", finishReason := some "stop" }]
      else if s = "d" then some [{ content := "more", finishReason := none }]
      else none
    completions := fun _ => none }

/-! ## String helper lemmas -/

theorem strApp_empty (s : String) : s ++ "" = s := by
  cases s with
  | mk d =>
    show String.mk (d ++ []) = String.mk d
    rw [List.append_nil]

theorem strEmpty_app (s : String) : "" ++ s = s := by
  cases s with
  | mk d =>
    show String.mk ([] ++ d) = String.mk d
    rw [List.nil_append]

theorem strApp_assoc (a b c : String) : a ++ b ++ c = a ++ (b ++ c) := by
  cases a with
  | mk da =>
    cases b with
    | mk db =>
      cases c with
      | mk dc =>
        show String.mk ((da ++ db) ++ dc) = String.mk (da ++ (db ++ dc))
        rw [List.append_assoc]

theorem length_ge_of_strTake6 {l : String} (h : strTake 6 l = "data: ") :
    ¬ l.length < 6 := by
  have hd : l.data.take 6 = ("data: " : String).data := congrArg String.data h
  have hlen : (l.data.take 6).length = 6 := by rw [hd]; decide
  rw [List.length_take] at hlen
  have : l.length = l.data.length := rfl
  omega

theorem normalizeFrame_ne_done {s : String}
    (h : strTake 12 s ≠ "data: [DONE]") :
    normalizeFrame s ≠ "data: [DONE]" := by
  unfold normalizeFrame
  rw [if_neg h]
  unfold trimSuffixCR
  split
  · next hlast =>
    intro hEq
    obtain ⟨t, ht⟩ := List.getLast?_eq_some_iff.mp hlast
    have hdrop : s.data.dropLast = ("data: [DONE]" : String).data :=
      congrArg String.data hEq
    rw [ht, List.dropLast_concat] at hdrop
    apply h
    show String.mk (s.data.take 12) = "data: [DONE]"
    rw [ht, hdrop]
    have h12 : (12 : Nat) = ("data: [DONE]" : String).data.length := by decide
    rw [h12, List.take_left]
  · intro hEq
    apply h
    rw [hEq]
    decide

/-! ## Choice-fold lemmas -/

theorem textFoldChat (cs : List ChatStreamChoice) (t : String) :
    cs.foldl (fun a c => a ++ c.content) t = t ++ textOfChatChoices cs := by
  induction cs generalizing t with
  | nil => simp [textOfChatChoices, strApp_empty]
  | cons c cs ih =>
    show cs.foldl _ (t ++ c.content) = t ++ textOfChatChoices (c :: cs)
    rw [ih]
    have : textOfChatChoices (c :: cs) = "" ++ c.content ++ textOfChatChoices cs := by
      show cs.foldl _ ("" ++ c.content) = _
      rw [ih]
    rw [this, strEmpty_app, strApp_assoc]

theorem textFoldCompletion (cs : List CompletionStreamChoice) (t : String) :
    cs.foldl (fun a c => a ++ c.text) t = t ++ textOfCompletionChoices cs := by
  induction cs generalizing t with
  | nil => simp [textOfCompletionChoices, strApp_empty]
  | cons c cs ih =>
    show cs.foldl _ (t ++ c.text) = t ++ textOfCompletionChoices (c :: cs)
    rw [ih]
    have : textOfCompletionChoices (c :: cs) = "" ++ c.text ++ textOfCompletionChoices cs := by
      show cs.foldl _ ("" ++ c.text) = _
      rw [ih]
    rw [this, strEmpty_app, strApp_assoc]

theorem foldChatChoices_eq (st : PState) (cs : List ChatStreamChoice) :
    foldChatChoices st cs =
      ⟨st.responseText ++ textOfChatChoices cs,
       st.needInject || cs.any (fun c => c.finishReason == some "stop")⟩ := by
  induction cs generalizing st with
  | nil =>
    cases st with
    | mk t b => simp [foldChatChoices, textOfChatChoices, strApp_empty]
  | cons c cs ih =>
    show foldChatChoices _ cs = _
    rw [ih]
    have htext : textOfChatChoices (c :: cs) = "" ++ c.content ++ textOfChatChoices cs := by
      show cs.foldl _ ("" ++ c.content) = _
      rw [textFoldChat]
    simp only [PState.mk.injEq]
    constructor
    · rw [htext, strEmpty_app, strApp_assoc]
    · rw [List.any_cons]
      by_cases hfr : c.finishReason = some "stop"
      · simp [hfr]
      · simp only [if_neg hfr]
        rw [beq_eq_false_iff_ne.mpr hfr, Bool.false_or]

theorem foldCompletionChoices_eq (st : PState) (cs : List CompletionStreamChoice) :
    foldCompletionChoices st cs =
      ⟨st.responseText ++ textOfCompletionChoices cs,
       st.needInject || cs.any (fun c => c.finishReason == "stop")⟩ := by
  induction cs generalizing st with
  | nil =>
    cases st with
    | mk t b => simp [foldCompletionChoices, textOfCompletionChoices, strApp_empty]
  | cons c cs ih =>
    show foldCompletionChoices _ cs = _
    rw [ih]
    have htext : textOfCompletionChoices (c :: cs) = "" ++ c.text ++ textOfCompletionChoices cs := by
      show cs.foldl _ ("" ++ c.text) = _
      rw [textFoldCompletion]
    simp only [PState.mk.injEq]
    constructor
    · rw [htext, strEmpty_app, strApp_assoc]
    · rw [List.any_cons]
      by_cases hfr : c.finishReason = "stop"
      · simp [hfr]
      · simp only [if_neg hfr]
        rw [beq_eq_false_iff_ne.mpr hfr, Bool.false_or]

/-! ## `injectStep` lemmas -/

theorem injectStep_text (fc : String) (st : PState) :
    (injectStep fc st).1.responseText = st.responseText := by
  unfold injectStep
  split
  · split <;> rfl
  · rfl

theorem injectStep_of_flag_false {st : PState} (fc : String)
    (h : st.needInject = false) : injectStep fc st = (st, []) := by
  unfold injectStep
  rw [h]
  simp

theorem injectStep_fire {st : PState} {fc : String}
    (h : st.needInject = true) (hfc : fc ≠ "") :
    injectStep fc st = (⟨st.responseText, false⟩, [OutFrame.injected fc]) := by
  unfold injectStep
  rw [h, if_pos rfl, if_pos hfc]

theorem injectStep_out {fc : String} {st : PState} :
    ∀ f ∈ (injectStep fc st).2, f = OutFrame.injected fc := by
  unfold injectStep
  split
  · split <;> simp
  · simp

/-! ## `chatCase` / `completionsCase` lemmas -/

theorem chatCase_text (dec : Decoders) (st : PState) (data : String) :
    (chatCase dec st data).1.responseText =
      st.responseText ++ chatDelta dec data := by
  unfold chatCase chatDelta
  cases hc : dec.chat (strDrop 6 data) with
  | none => exact (strApp_empty _).symm
  | some cs => simp [foldChatChoices_eq]

theorem completionsCase_text (dec : Decoders) (st : PState) (data : String) :
    (completionsCase dec st data).1.responseText =
      st.responseText ++ completionsDelta dec data := by
  unfold completionsCase completionsDelta
  cases hc : dec.completions (strDrop 6 data) with
  | none => exact (strApp_empty _).symm
  | some cs => simp [foldCompletionChoices_eq]

theorem chatCase_out {dec : Decoders} {st : PState} {data : String} :
    ∀ f ∈ (chatCase dec st data).2, f = OutFrame.forwarded data := by
  unfold chatCase
  cases hc : dec.chat (strDrop 6 data) with
  | none => simp
  | some cs =>
    intro f hf
    by_cases hni : (foldChatChoices st cs).needInject
    · simp [hni] at hf
    · simp [hni] at hf
      exact hf

theorem completionsCase_out {dec : Decoders} {st : PState} {data : String} :
    ∀ f ∈ (completionsCase dec st data).2, f = OutFrame.forwarded data := by
  unfold completionsCase
  cases hc : dec.completions (strDrop 6 data) with
  | none => simp
  | some cs =>
    intro f hf
    by_cases hni : (foldCompletionChoices st cs).needInject
    · simp [hni] at hf
    · simp [hni] at hf
      exact hf

theorem chatCase_stopFree_flag {dec : Decoders} {st : PState} {data : String}
    (hst : st.needInject = false) (hl : chatLineStopFree dec data) :
    (chatCase dec st data).1.needInject = false := by
  unfold chatCase
  cases hc : dec.chat (strDrop 6 data) with
  | none => exact hst
  | some cs =>
    simp only [foldChatChoices_eq, hst, Bool.false_or]
    rw [List.any_eq_false]
    intro c hc2
    simp only [beq_iff_eq]
    exact hl cs hc c hc2

theorem chatCase_stop {dec : Decoders} {st : PState} {data : String}
    {cs : List ChatStreamChoice}
    (hcs : dec.chat (strDrop 6 data) = some cs)
    (hstop : cs.any (fun c => c.finishReason == some "stop") = true) :
    chatCase dec st data =
      (⟨st.responseText ++ textOfChatChoices cs, true⟩, []) := by
  unfold chatCase
  rw [hcs]
  simp only [foldChatChoices_eq, hstop, Bool.or_true]
  simp

/-! ## `parseForward` lemmas -/

theorem parseForward_chatMode (dec : Decoders) (st : PState) (data : String) :
    parseForward RelayMode.chatCompletions dec st data =
      if strTake 6 data = "data: " then
        if data = "data: [DONE]" then (st, []) else chatCase dec st data
      else (st, if st.needInject then [] else [OutFrame.forwarded data]) := rfl

theorem parseForward_completionsMode (dec : Decoders) (st : PState) (data : String) :
    parseForward RelayMode.completions dec st data =
      if strTake 6 data = "data: " then
        if data = "data: [DONE]" then (st, []) else completionsCase dec st data
      else (st, if st.needInject then [] else [OutFrame.forwarded data]) := rfl

theorem parseForward_otherMode (dec : Decoders) (st : PState) (data : String) :
    parseForward RelayMode.other dec st data =
      if strTake 6 data = "data: " then
        if data = "data: [DONE]" then (st, [])
        else (st, if st.needInject then [] else [OutFrame.forwarded data])
      else (st, if st.needInject then [] else [OutFrame.forwarded data]) := rfl

theorem parseDelta_chatMode (dec : Decoders) (data : String) :
    parseDelta RelayMode.chatCompletions dec data =
      if strTake 6 data = "data: " then
        if data = "data: [DONE]" then "" else chatDelta dec data
      else "" := rfl

theorem parseDelta_completionsMode (dec : Decoders) (data : String) :
    parseDelta RelayMode.completions dec data =
      if strTake 6 data = "data: " then
        if data = "data: [DONE]" then "" else completionsDelta dec data
      else "" := rfl

theorem parseDelta_otherMode (dec : Decoders) (data : String) :
    parseDelta RelayMode.other dec data =
      if strTake 6 data = "data: " then
        if data = "data: [DONE]" then "" else ""
      else "" := rfl

theorem parseForward_text (mode : RelayMode) (dec : Decoders) (st : PState)
    (data : String) :
    (parseForward mode dec st data).1.responseText =
      st.responseText ++ parseDelta mode dec data := by
  cases mode with
  | chatCompletions =>
    rw [parseForward_chatMode, parseDelta_chatMode]
    by_cases h6 : strTake 6 data = "data: "
    · simp only [if_pos h6]
      by_cases hd : data = "data: [DONE]"
      · simp only [if_pos hd]
        exact (strApp_empty _).symm
      · simp only [if_neg hd]
        exact chatCase_text dec st data
    · simp only [if_neg h6]
      exact (strApp_empty _).symm
  | completions =>
    rw [parseForward_completionsMode, parseDelta_completionsMode]
    by_cases h6 : strTake 6 data = "data: "
    · simp only [if_pos h6]
      by_cases hd : data = "data: [DONE]"
      · simp only [if_pos hd]
        exact (strApp_empty _).symm
      · simp only [if_neg hd]
        exact completionsCase_text dec st data
    · simp only [if_neg h6]
      exact (strApp_empty _).symm
  | other =>
    rw [parseForward_otherMode, parseDelta_otherMode]
    by_cases h6 : strTake 6 data = "data: "
    · simp only [if_pos h6]
      by_cases hd : data = "data: [DONE]"
      · simp only [if_pos hd]
        exact (strApp_empty _).symm
      · simp only [if_neg hd]
        exact (strApp_empty _).symm
    · simp only [if_neg h6]
      exact (strApp_empty _).symm

theorem parseForward_out {mode : RelayMode} {dec : Decoders} {st : PState}
    {data : String} :
    ∀ f ∈ (parseForward mode dec st data).2,
      f = OutFrame.forwarded data ∧ data ≠ "data: [DONE]" := by
  intro f hf
  have hdone6 : strTake 6 ("data: [DONE]" : String) = "data: " := by decide
  cases mode with
  | chatCompletions =>
    rw [parseForward_chatMode] at hf
    by_cases h6 : strTake 6 data = "data: "
    · rw [if_pos h6] at hf
      by_cases hd : data = "data: [DONE]"
      · rw [if_pos hd] at hf
        simp at hf
      · rw [if_neg hd] at hf
        exact ⟨chatCase_out f hf, hd⟩
    · rw [if_neg h6] at hf
      have hd : data ≠ "data: [DONE]" := fun hEq => h6 (by rw [hEq]; exact hdone6)
      refine ⟨?_, hd⟩
      split at hf
      · simp at hf
      · simpa using hf
  | completions =>
    rw [parseForward_completionsMode] at hf
    by_cases h6 : strTake 6 data = "data: "
    · rw [if_pos h6] at hf
      by_cases hd : data = "data: [DONE]"
      · rw [if_pos hd] at hf
        simp at hf
      · rw [if_neg hd] at hf
        exact ⟨completionsCase_out f hf, hd⟩
    · rw [if_neg h6] at hf
      have hd : data ≠ "data: [DONE]" := fun hEq => h6 (by rw [hEq]; exact hdone6)
      refine ⟨?_, hd⟩
      split at hf
      · simp at hf
      · simpa using hf
  | other =>
    rw [parseForward_otherMode] at hf
    by_cases h6 : strTake 6 data = "data: "
    · rw [if_pos h6] at hf
      by_cases hd : data = "data: [DONE]"
      · rw [if_pos hd] at hf
        simp at hf
      · rw [if_neg hd] at hf
        refine ⟨?_, hd⟩
        split at hf
        · simp at hf
        · simpa using hf
    · rw [if_neg h6] at hf
      have hd : data ≠ "data: [DONE]" := fun hEq => h6 (by rw [hEq]; exact hdone6)
      refine ⟨?_, hd⟩
      split at hf
      · simp at hf
      · simpa using hf

theorem parseForward_stopFree_flag {dec : Decoders} {st : PState} {data : String}
    (hst : st.needInject = false) (hl : chatLineStopFree dec data) :
    (parseForward RelayMode.chatCompletions dec st data).1.needInject = false := by
  rw [parseForward_chatMode]
  by_cases h6 : strTake 6 data = "data: "
  · rw [if_pos h6]
    by_cases hd : data = "data: [DONE]"
    · rw [if_pos hd]
      exact hst
    · rw [if_neg hd]
      exact chatCase_stopFree_flag hst hl
  · rw [if_neg h6]
    exact hst

theorem parseForward_stop {dec : Decoders} {st : PState} {data : String}
    {cs : List ChatStreamChoice}
    (h6 : strTake 6 data = "data: ") (hne : data ≠ "data: [DONE]")
    (hcs : dec.chat (strDrop 6 data) = some cs)
    (hstop : cs.any (fun c => c.finishReason == some "stop") = true) :
    parseForward RelayMode.chatCompletions dec st data =
      (⟨st.responseText ++ textOfChatChoices cs, true⟩, []) := by
  rw [parseForward_chatMode, if_pos h6, if_neg hne]
  exact chatCase_stop hcs hstop

/-! ## `processLine` lemmas -/

theorem processLine_text (mode : RelayMode) (dec : Decoders) (fc : String)
    (st : PState) (data : String) :
    (processLine mode dec fc st data).1.responseText =
      st.responseText ++ deltaOfLine mode dec data := by
  unfold processLine deltaOfLine
  split
  · exact (strApp_empty _).symm
  · split
    · exact (strApp_empty _).symm
    · rw [parseForward_text, injectStep_text]

theorem processLine_out {mode : RelayMode} {dec : Decoders} {fc : String}
    {st : PState} {data : String} :
    ∀ f ∈ (processLine mode dec fc st data).2,
      (f = OutFrame.forwarded data ∧ data ≠ "data: [DONE]") ∨
        f = OutFrame.injected fc := by
  unfold processLine
  split
  · simp
  · split
    · simp
    · intro f hf
      rw [List.mem_append] at hf
      cases hf with
      | inl h => exact Or.inr (injectStep_out f h)
      | inr h => exact Or.inl (parseForward_out f h)

theorem processLine_stopFree (fc : String) {dec : Decoders} {st : PState}
    {data : String} (hst : st.needInject = false)
    (hl : chatLineStopFree dec data) :
    (processLine RelayMode.chatCompletions dec fc st data).1.needInject = false ∧
      countInjected (processLine RelayMode.chatCompletions dec fc st data).2 = 0 := by
  unfold processLine
  split
  · exact ⟨hst, rfl⟩
  · split
    · exact ⟨hst, rfl⟩
    · rw [injectStep_of_flag_false fc hst]
      refine ⟨parseForward_stopFree_flag hst hl, ?_⟩
      show countInjected ([] ++ _) = 0
      rw [List.nil_append]
      rw [countInjected, List.length_eq_zero, List.filter_eq_nil_iff]
      intro f hf
      have := parseForward_out f hf
      rw [this.1]
      simp [isInjectedFrame]

theorem processLine_wf {dec : Decoders} {fc : String} {st : PState}
    {data : String} (hst : st.needInject = false)
    (hl : wfNoStopChatLine dec data) :
    processLine RelayMode.chatCompletions dec fc st data =
      (⟨st.responseText ++ deltaOfLine RelayMode.chatCompletions dec data, false⟩,
       [OutFrame.forwarded data]) := by
  obtain ⟨h6, hne, cs, hcs, hstop⟩ := hl
  have hpref : ¬ (strTake 6 data ≠ "data: " ∧ strTake 6 data ≠ "[DONE]") :=
    fun hcontra => hcontra.1 h6
  have hdelta : deltaOfLine RelayMode.chatCompletions dec data = textOfChatChoices cs := by
    unfold deltaOfLine
    rw [if_neg (length_ge_of_strTake6 h6), if_neg hpref, parseDelta_chatMode,
        if_pos h6, if_neg hne]
    unfold chatDelta
    rw [hcs]
  have hchat : chatCase dec st data =
      (⟨st.responseText ++ textOfChatChoices cs, false⟩, [OutFrame.forwarded data]) := by
    unfold chatCase
    rw [hcs]
    simp only [foldChatChoices_eq, hst, hstop, Bool.false_or]
    simp
  unfold processLine
  rw [if_neg (length_ge_of_strTake6 h6), if_neg hpref,
      injectStep_of_flag_false fc hst]
  simp only [parseForward_chatMode, if_pos h6, if_neg hne]
  simp [hchat, hdelta]

theorem processLine_stopLine {dec : Decoders} {fc : String} {st : PState}
    {data : String} {cs : List ChatStreamChoice} (hst : st.needInject = false)
    (h6 : strTake 6 data = "data: ") (hne : data ≠ "data: [DONE]")
    (hcs : dec.chat (strDrop 6 data) = some cs)
    (hstop : cs.any (fun c => c.finishReason == some "stop") = true) :
    processLine RelayMode.chatCompletions dec fc st data =
      (⟨st.responseText ++ textOfChatChoices cs, true⟩, []) := by
  have hpref : ¬ (strTake 6 data ≠ "data: " ∧ strTake 6 data ≠ "[DONE]") :=
    fun hcontra => hcontra.1 h6
  have hchat : chatCase dec st data =
      (⟨st.responseText ++ textOfChatChoices cs, true⟩, []) :=
    chatCase_stop hcs hstop
  unfold processLine
  rw [if_neg (length_ge_of_strTake6 h6), if_neg hpref,
      injectStep_of_flag_false fc hst]
  simp only [parseForward_chatMode, if_pos h6, if_neg hne]
  simp [hchat]

theorem processLine_fires {mode : RelayMode} {dec : Decoders} {fc : String}
    {st : PState} {data : String} (hst : st.needInject = true) (hfc : fc ≠ "")
    (hlen : ¬ data.length < 6)
    (hpref : ¬ (strTake 6 data ≠ "data: " ∧ strTake 6 data ≠ "[DONE]")) :
    processLine mode dec fc st data =
      ((processLine mode dec fc ⟨st.responseText, false⟩ data).1,
       OutFrame.injected fc ::
         (processLine mode dec fc ⟨st.responseText, false⟩ data).2) := by
  simp only [processLine, if_neg hlen, if_neg hpref]
  rw [injectStep_fire hst hfc,
      injectStep_of_flag_false fc (show (⟨st.responseText, false⟩ : PState).needInject = false from rfl)]
  simp

/-! ## Producer-run lemmas -/

theorem countInjected_append (a b : List OutFrame) :
    countInjected (a ++ b) = countInjected a + countInjected b := by
  simp [countInjected, List.filter_append]

theorem countCanonicalDone_append (a b : List OutFrame) :
    countCanonicalDone (a ++ b) =
      countCanonicalDone a + countCanonicalDone b := by
  simp [countCanonicalDone, List.filter_append]

theorem producerRunFrom_append (mode : RelayMode) (dec : Decoders)
    (fc : String) (st : PState) (xs ys : List String) :
    producerRunFrom mode dec fc st (xs ++ ys) =
      ((producerRunFrom mode dec fc (producerRunFrom mode dec fc st xs).1 ys).1,
       (producerRunFrom mode dec fc st xs).2 ++
         (producerRunFrom mode dec fc (producerRunFrom mode dec fc st xs).1 ys).2) := by
  induction xs generalizing st with
  | nil => simp [producerRunFrom]
  | cons l ls ih =>
    show producerRunFrom _ _ _ _ (l :: (ls ++ ys)) = _
    simp only [producerRunFrom]
    rw [ih]
    simp [List.append_assoc]

theorem joinFoldl (L : List String) (t : String) :
    L.foldl (fun a b => a ++ b) t = t ++ String.join L := by
  induction L generalizing t with
  | nil => exact (strApp_empty t).symm
  | cons s L ih =>
    show L.foldl _ (t ++ s) = t ++ String.join (s :: L)
    rw [ih]
    have : String.join (s :: L) = "" ++ s ++ String.join L := by
      show L.foldl _ ("" ++ s) = _
      rw [ih]
    rw [this, strEmpty_app, strApp_assoc]

theorem join_cons (s : String) (L : List String) :
    String.join (s :: L) = s ++ String.join L := by
  show L.foldl _ ("" ++ s) = _
  rw [joinFoldl, strEmpty_app]

theorem producerRunFrom_text (mode : RelayMode) (dec : Decoders) (fc : String)
    (st : PState) (ls : List String) :
    (producerRunFrom mode dec fc st ls).1.responseText =
      st.responseText ++ String.join (ls.map (deltaOfLine mode dec)) := by
  induction ls generalizing st with
  | nil => exact (strApp_empty _).symm
  | cons l ls ih =>
    simp only [producerRunFrom]
    rw [ih, processLine_text, List.map_cons, join_cons, strApp_assoc]

theorem producerRunFrom_out (mode : RelayMode) (dec : Decoders) (fc : String)
    (st : PState) (ls : List String) :
    ∀ f ∈ (producerRunFrom mode dec fc st ls).2,
      (∃ s, f = OutFrame.forwarded s ∧ s ∈ ls ∧ s ≠ "data: [DONE]") ∨
        f = OutFrame.injected fc := by
  induction ls generalizing st with
  | nil => simp [producerRunFrom]
  | cons l ls ih =>
    intro f hf
    simp only [producerRunFrom] at hf
    rw [List.mem_append] at hf
    cases hf with
    | inl h =>
      cases processLine_out f h with
      | inl h2 => exact Or.inl ⟨l, h2.1, List.mem_cons_self l ls, h2.2⟩
      | inr h2 => exact Or.inr h2
    | inr h =>
      rcases ih _ f h with ⟨s, hs1, hs2, hs3⟩ | h2
      · exact Or.inl ⟨s, hs1, List.mem_cons_of_mem l hs2, hs3⟩
      · exact Or.inr h2

theorem producerRunFrom_stopFree (dec : Decoders) (fc : String) (st : PState)
    (ls : List String) (hst : st.needInject = false)
    (hl : ∀ l ∈ ls, chatLineStopFree dec l) :
    (producerRunFrom RelayMode.chatCompletions dec fc st ls).1.needInject = false ∧
      countInjected (producerRunFrom RelayMode.chatCompletions dec fc st ls).2 = 0 := by
  induction ls generalizing st with
  | nil => exact ⟨hst, rfl⟩
  | cons l ls ih =>
    have h1 := processLine_stopFree fc hst (hl l (List.mem_cons_self l ls))
    have h2 := ih _ h1.1 (fun x hx => hl x (List.mem_cons_of_mem l hx))
    simp only [producerRunFrom]
    refine ⟨h2.1, ?_⟩
    rw [countInjected_append, h1.2, h2.2]

theorem producerRunFrom_wf (dec : Decoders) (fc : String) (st : PState)
    (ls : List String) (hst : st.needInject = false)
    (hl : ∀ l ∈ ls, wfNoStopChatLine dec l) :
    producerRunFrom RelayMode.chatCompletions dec fc st ls =
      (⟨st.responseText ++
          String.join (ls.map (deltaOfLine RelayMode.chatCompletions dec)), false⟩,
       ls.map OutFrame.forwarded) := by
  induction ls generalizing st with
  | nil =>
    cases st with
    | mk t b =>
      subst hst
      show ((⟨t, false⟩ : PState), ([] : List OutFrame)) = _
      rw [List.map_nil]
      show _ = ((⟨t ++ "", false⟩ : PState), ([] : List OutFrame))
      rw [strApp_empty]
  | cons l ls ih =>
    simp only [producerRunFrom]
    rw [processLine_wf hst (hl l (List.mem_cons_self l ls))]
    rw [ih _ rfl (fun x hx => hl x (List.mem_cons_of_mem l hx))]
    simp only [List.map_cons, join_cons, strApp_assoc]
    simp

theorem isCanonicalDoneFrame_forwarded_false {s : String}
    (h : strTake 12 s ≠ "data: [DONE]") :
    isCanonicalDoneFrame (OutFrame.forwarded s) = false := by
  show (normalizeFrame s == "data: [DONE]") = false
  rw [beq_eq_false_iff_ne]
  exact normalizeFrame_ne_done h

theorem producerRunFrom_cons (mode : RelayMode) (dec : Decoders) (fc : String)
    (st : PState) (l : String) (ls : List String) :
    producerRunFrom mode dec fc st (l :: ls) =
      ((producerRunFrom mode dec fc (processLine mode dec fc st l).1 ls).1,
       (processLine mode dec fc st l).2 ++
         (producerRunFrom mode dec fc (processLine mode dec fc st l).1 ls).2) := rfl

theorem runFrom_fires (mode : RelayMode) (dec : Decoders) (fc : String)
    (T1 : String) (t : String) (rest : List String) (hfc : fc ≠ "")
    (hlen : ¬ t.length < 6)
    (hpref : ¬ (strTake 6 t ≠ "data: " ∧ strTake 6 t ≠ "[DONE]")) :
    producerRunFrom mode dec fc ⟨T1, true⟩ (t :: rest) =
      ((producerRunFrom mode dec fc ⟨T1, false⟩ (t :: rest)).1,
       OutFrame.injected fc ::
         (producerRunFrom mode dec fc ⟨T1, false⟩ (t :: rest)).2) := by
  rw [producerRunFrom_cons, producerRunFrom_cons,
      processLine_fires rfl hfc hlen hpref]
  simp

theorem countInjected_cons_injected (fc : String) (l : List OutFrame) :
    countInjected (OutFrame.injected fc :: l) = countInjected l + 1 := by
  simp [countInjected, List.filter_cons, isInjectedFrame]

/-! ## Claim C1 -/

/-- Claim C1 (code bug, evaluation at the failing input): with
`fixedContent = ""`, once a finish-reason `"stop"` is observed the pending
flag is never reset (the reset sits inside the `fixedContent != ""`
branch), so the stop-carrying frame and every later frame are suppressed:
for the stream [stop frame, well-formed delta frame, `"data: [DONE]"`]
the client receives only the terminal marker, even though the delta text
of both frames is still accumulated into the returned text.  The claim
instead says the flag is simply cleared and subsequent frames keep being
forwarded unmodified. -/
theorem c1_empty_fixed_content_evaluation :
    producerOutput RelayMode.chatCompletions testDec ""
      ["data: s", "data: d", "data: [DONE]"] = [OutFrame.done] ∧
    streamResponseText RelayMode.chatCompletions testDec ""
      ["data: s", "data: d", "data: [DONE]"] = "more" := by decide

/-! ## Claim C2 -/

/-- Claim C2 (counterexample): a stream whose stop-carrying frame is the
last frame of the input, with non-empty fixed content, produces no
synthetic frame at all (the injection flag is only consulted at the start
of a later iteration), refuting "exactly one synthetic injected frame
appears … immediately before the terminal marker when the stop-carrying
frame is the last frame of the input". -/
theorem c2_counterexample :
    ¬ (∀ (lines : List String) (fc : String), fc ≠ "" →
        (∃ l ∈ lines, strTake 6 l = "data: " ∧
          ∃ cs, testDec.chat (strDrop 6 l) = some cs ∧
            ∃ c ∈ cs, c.finishReason = some "stop") →
        countInjected
          (producerOutput RelayMode.chatCompletions testDec fc lines) = 1) := by
  intro h
  exact absurd
    (h ["data: s"] "x" (by decide)
      ⟨"data: s", List.mem_singleton.mpr rfl, by decide,
        [{ content := "", finishReason := some "stop" }], by decide,
        { content := "", finishReason := some "stop" },
        List.mem_singleton.mpr rfl, rfl⟩)
    (by decide)

/-- Claim C2 (amended): in a chat-mode stream consisting of stop-free
frames, then one frame that parses to a choice list containing
finish-reason `"stop"`, then a filter-passing frame `t` and further
stop-free frames, with non-empty fixed content, exactly one synthetic
frame is emitted, positioned immediately before the output of the frames
that follow the stop frame (the stop frame itself is not forwarded); if no
filter-passing frame follows the stop frame, no synthetic frame is
emitted. -/
theorem c2_amended_single_injection (dec : Decoders) (fc : String)
    (pre : List String) (stopLine t : String) (rest : List String)
    (cs : List ChatStreamChoice)
    (hfc : fc ≠ "")
    (hpre : ∀ l ∈ pre, chatLineStopFree dec l)
    (h6 : strTake 6 stopLine = "data: ")
    (hne : stopLine ≠ "data: [DONE]")
    (hcs : dec.chat (strDrop 6 stopLine) = some cs)
    (hstop : cs.any (fun c => c.finishReason == some "stop") = true)
    (hlen : ¬ t.length < 6)
    (hpref : ¬ (strTake 6 t ≠ "data: " ∧ strTake 6 t ≠ "[DONE]"))
    (ht : chatLineStopFree dec t)
    (hrest : ∀ l ∈ rest, chatLineStopFree dec l) :
    producerOutput RelayMode.chatCompletions dec fc (pre ++ stopLine :: t :: rest) =
      (producerRun RelayMode.chatCompletions dec fc pre).2 ++
        OutFrame.injected fc ::
          ((producerRunFrom RelayMode.chatCompletions dec fc
              ⟨(producerRun RelayMode.chatCompletions dec fc pre).1.responseText ++
                textOfChatChoices cs, false⟩ (t :: rest)).2 ++ [OutFrame.done]) ∧
    countInjected (producerOutput RelayMode.chatCompletions dec fc
      (pre ++ stopLine :: t :: rest)) = 1 := by
  have hpre0 := producerRunFrom_stopFree dec fc ⟨"", false⟩ pre rfl hpre
  have h1a : (processLine RelayMode.chatCompletions dec fc
      (producerRunFrom RelayMode.chatCompletions dec fc ⟨"", false⟩ pre).1 stopLine).1 =
      ⟨(producerRunFrom RelayMode.chatCompletions dec fc ⟨"", false⟩ pre).1.responseText ++
        textOfChatChoices cs, true⟩ := by
    rw [processLine_stopLine hpre0.1 h6 hne hcs hstop]
  have h1b : (processLine RelayMode.chatCompletions dec fc
      (producerRunFrom RelayMode.chatCompletions dec fc ⟨"", false⟩ pre).1 stopLine).2 =
      [] := by
    rw [processLine_stopLine hpre0.1 h6 hne hcs hstop]
  have hG := producerRunFrom_stopFree dec fc
      ⟨(producerRunFrom RelayMode.chatCompletions dec fc ⟨"", false⟩ pre).1.responseText ++
        textOfChatChoices cs, false⟩ (t :: rest) rfl (by
        intro l hl
        rcases List.mem_cons.mp hl with h | h
        · rw [h]; exact ht
        · exact hrest l h)
  have hout : producerOutput RelayMode.chatCompletions dec fc
      (pre ++ stopLine :: t :: rest) =
      (producerRun RelayMode.chatCompletions dec fc pre).2 ++
        OutFrame.injected fc ::
          ((producerRunFrom RelayMode.chatCompletions dec fc
              ⟨(producerRun RelayMode.chatCompletions dec fc pre).1.responseText ++
                textOfChatChoices cs, false⟩ (t :: rest)).2 ++ [OutFrame.done]) := by
    simp only [producerOutput, producerRun]
    rw [producerRunFrom_append, producerRunFrom_cons, h1a, h1b,
        runFrom_fires RelayMode.chatCompletions dec fc _ t rest hfc hlen hpref]
    simp [List.append_assoc]
  refine ⟨hout, ?_⟩
  rw [hout]
  simp only [producerRun]
  rw [countInjected_append, hpre0.2, countInjected_cons_injected,
      countInjected_append, hG.2]
  rfl

/-- Witness for the amended claim C2 at a concrete stream: empty prefix,
stop frame `"data: s"`, followed by the bare `"[DONE]"` sentinel. -/
theorem c2_amended_witness :
    countInjected (producerOutput RelayMode.chatCompletions testDec "x"
      (([] : List String) ++ "data: s" :: "[DONE]" :: ([] : List String))) = 1 :=
  (c2_amended_single_injection testDec "x" [] "data: s" "[DONE]" []
    [{ content := "", finishReason := some "stop" }]
    (by decide) (by simp) (by decide) (by decide) (by decide) (by decide)
    (by decide) (by decide)
    (by
      intro csx hx
      have hnone : testDec.chat (strDrop 6 "[DONE]") = none := by decide
      rw [hnone] at hx
      exact Option.noConfusion hx)
    (by simp)).2

/-! ## Claim C3 -/

/-- Claim C3 (counterexample): for the scenario stream (delta `"Hi"`;
delta `" there"` with finish-reason `"stop"`; bare `"[DONE]"`) with fixed
content `"Ad text"`, the claimed client trace — forward frame 1, forward
frame 2, inject, terminal — is not what the code produces (the
stop-carrying frame 2 is never forwarded, and the bare `"[DONE]"` line is
forwarded verbatim). -/
theorem c3_counterexample :
    ¬ (producerOutput RelayMode.chatCompletions testDec "Ad text"
        ["data: h1", "data: h2", "[DONE]"] =
      [OutFrame.forwarded "data: h1", OutFrame.forwarded "data: h2",
       OutFrame.injected "Ad text", OutFrame.done] ∧
      streamResponseText RelayMode.chatCompletions testDec "Ad text"
        ["data: h1", "data: h2", "[DONE]"] = "Hi there") := by decide

/-- Claim C3 (amended): for the scenario stream the code forwards frame 1,
suppresses the stop-carrying frame 2 (its text is still accumulated),
injects the synthetic frame at the start of the `"[DONE]"` iteration,
forwards the bare `"[DONE]"` line verbatim, and finally emits the
session's `data: [DONE]`; the returned text is `"Hi there"` and the
synthetic frame's delta content is `"\n\nAd text"`. -/
theorem c3_amended_trace :
    producerOutput RelayMode.chatCompletions testDec "Ad text"
      ["data: h1", "data: h2", "[DONE]"] =
      [OutFrame.forwarded "data: h1", OutFrame.injected "Ad text",
       OutFrame.forwarded "[DONE]", OutFrame.done] ∧
    streamResponseText RelayMode.chatCompletions testDec "Ad text"
      ["data: h1", "data: h2", "[DONE]"] = "Hi there" ∧
    ∀ (uuid : String) (ts : Int),
      (generateFixedContentMessage uuid ts "Ad text").choices.map
        (fun c => c.delta.content) = ["\n\nAd text"] := by
  refine ⟨by decide, by decide, ?_⟩
  intro uuid ts
  rfl

/-! ## Claim C4 -/

/-- Claim C4 (counterexample): upstream may spell a terminal marker as the
bare sentinel `"[DONE]"`; that line passes the prefix filter and is
forwarded to the client verbatim, so the client stream for input
`["[DONE]"]` carries two terminal markers, one of them not in the
canonical 12-character form — refuting "exactly one terminal marker,
written in the canonical form, regardless of how upstream spelled its
terminal markers". -/
theorem c4_counterexample :
    ¬ (∀ (fc : String) (lines : List String),
        ((producerOutput RelayMode.chatCompletions testDec fc lines).filter
            isTerminalMarkerFrame).length = 1 ∧
        ∀ f ∈ producerOutput RelayMode.chatCompletions testDec fc lines,
          isTerminalMarkerFrame f = true → isCanonicalDoneFrame f = true) := by
  intro h
  exact absurd (h "" ["[DONE]"]).1 (by decide)

/-- Claim C4 (amended): provided upstream spells every
`"data: [DONE]"`-prefixed line exactly (no trailing bytes), the client
stream contains exactly one frame equal to the canonical `data: [DONE]` —
however many (zero or more) `data: [DONE]` markers upstream sent, they all
collapse into the single session-owned terminal; bare `"[DONE]"` markers
are not collapsed but forwarded as ordinary frames. -/
theorem c4_amended_canonical_terminal (mode : RelayMode) (dec : Decoders)
    (fc : String) (lines : List String)
    (hlines : ∀ l ∈ lines, strTake 12 l = "data: [DONE]" → l = "data: [DONE]") :
    countCanonicalDone (producerOutput mode dec fc lines) = 1 := by
  unfold producerOutput
  rw [countCanonicalDone_append]
  have h0 : countCanonicalDone (producerRun mode dec fc lines).2 = 0 := by
    rw [countCanonicalDone, List.length_eq_zero, List.filter_eq_nil_iff]
    intro f hf
    rcases producerRunFrom_out mode dec fc ⟨"", false⟩ lines f hf with
      ⟨s, hs1, hs2, hs3⟩ | h2
    · rw [hs1]
      have hneq : strTake 12 s ≠ "data: [DONE]" := by
        intro h12
        exact hs3 (hlines s hs2 h12)
      rw [isCanonicalDoneFrame_forwarded_false hneq]
      simp
    · rw [h2]
      simp [isCanonicalDoneFrame]
  rw [h0]
  rfl

/-- Witness for the amended claim C4: two upstream `data: [DONE]` markers
collapse to exactly one canonical terminal. -/
theorem c4_amended_witness :
    countCanonicalDone (producerOutput RelayMode.chatCompletions testDec ""
      ["data: [DONE]", "data: [DONE]"]) = 1 :=
  c4_amended_canonical_terminal RelayMode.chatCompletions testDec ""
    ["data: [DONE]", "data: [DONE]"] (by decide)

/-! ## Claim C5 -/

/-- Claim C5: a well-formed chat-mode stream of delta frames none of which
carries finish-reason `"stop"` is forwarded one-to-one — the client
receives exactly the N upstream frames, in order and unmodified, followed
by the single terminal marker — and the returned text is the in-order
concatenation of all delta contents. -/
theorem c5_no_stop_stream_passthrough (dec : Decoders) (fc : String)
    (lines : List String) (h : ∀ l ∈ lines, wfNoStopChatLine dec l) :
    producerOutput RelayMode.chatCompletions dec fc lines =
      lines.map OutFrame.forwarded ++ [OutFrame.done] ∧
    streamResponseText RelayMode.chatCompletions dec fc lines =
      String.join (lines.map (deltaOfLine RelayMode.chatCompletions dec)) := by
  have hw := producerRunFrom_wf dec fc ⟨"", false⟩ lines rfl h
  constructor
  · unfold producerOutput producerRun
    rw [hw]
  · unfold streamResponseText producerRun
    rw [hw]
    exact strEmpty_app _

/-- Witness for claim C5 at a concrete two-frame stream. -/
theorem c5_witness :
    producerOutput RelayMode.chatCompletions testDec "ad" ["data: h1", "data: d"] =
      ["data: h1", "data: d"].map OutFrame.forwarded ++ [OutFrame.done] ∧
    streamResponseText RelayMode.chatCompletions testDec "ad" ["data: h1", "data: d"] =
      String.join (["data: h1", "data: d"].map
        (deltaOfLine RelayMode.chatCompletions testDec)) :=
  c5_no_stop_stream_passthrough testDec "ad" ["data: h1", "data: d"] (by
    intro l hl
    rcases List.mem_cons.mp hl with h1 | h1
    · rw [h1]
      exact ⟨by decide, by decide,
        [{ content := "Hi", finishReason := none }], by decide, by decide⟩
    · rw [List.mem_singleton.mp h1]
      exact ⟨by decide, by decide,
        [{ content := "more", finishReason := none }], by decide, by decide⟩)

/-! ## `handler` lemmas -/

theorem injectedResponse_empty (sc : HMessage → String)
    (ms : String → Option String) (tr : SlimTextResponse) :
    injectedResponse sc ms "" tr = some tr := by
  unfold injectedResponse
  simp

theorem injectedResponse_usage {sc : HMessage → String}
    {ms : String → Option String} {fixedContent : String}
    {tr tr1 : SlimTextResponse}
    (h : injectedResponse sc ms fixedContent tr = some tr1) :
    tr1.usage = tr.usage ∧ tr1.error = tr.error := by
  unfold injectedResponse at h
  split at h
  · cases hi : injectChoices sc ms fixedContent tr.choices with
    | none =>
      rw [hi] at h
      exact Option.noConfusion h
    | some cs =>
      rw [hi] at h
      have h2 := Option.some.inj h
      rw [← h2]
      exact ⟨rfl, rfl⟩
  · have h2 := Option.some.inj h
    rw [← h2]
    exact ⟨rfl, rfl⟩

theorem backfillUsage_usage_eq (ct : String → String → Int)
    (promptTokens : Int) (model rt : String) (a : SlimTextResponse) :
    (backfillUsage ct promptTokens model rt a).usage =
      if a.usage.totalTokens = 0 then
        { promptTokens := promptTokens
          completionTokens := ct rt model
          totalTokens := promptTokens + ct rt model }
      else a.usage := by
  unfold backfillUsage
  split <;> rfl

theorem handler_ok_parts (sc : HMessage → String) (ms : String → Option String)
    (ct : String → String → Int) (statusCode : Int)
    (headers : List (String × List String)) (promptTokens : Int)
    (model fixedContent : String) (tr : SlimTextResponse)
    (hok : (handler sc ms ct statusCode headers promptTokens model
      fixedContent tr).1.err = none) :
    (handler sc ms ct statusCode headers promptTokens model fixedContent tr).1.text =
      lastChoiceText sc tr.choices ∧
    (handler sc ms ct statusCode headers promptTokens model fixedContent tr).1.usage =
      some (if tr.usage.totalTokens = 0 then
              { promptTokens := promptTokens
                completionTokens := ct (lastChoiceText sc tr.choices) model
                totalTokens := promptTokens + ct (lastChoiceText sc tr.choices) model }
            else tr.usage) := by
  unfold handler at hok ⊢
  by_cases herr : tr.error.type ≠ ""
  · rw [if_pos herr] at hok
    exact Option.noConfusion hok
  · rw [if_neg herr] at hok ⊢
    cases hinj : injectedResponse sc ms fixedContent tr with
    | none =>
      rw [hinj] at hok
      exact Option.noConfusion hok
    | some tr1 =>
      constructor
      · rfl
      · show some (backfillUsage ct promptTokens model
            (lastChoiceText sc tr.choices) tr1).usage = _
        rw [backfillUsage_usage_eq, (injectedResponse_usage hinj).1]

theorem streamResponseText_eq_join (mode : RelayMode) (dec : Decoders)
    (fc : String) (lines : List String) :
    streamResponseText mode dec fc lines =
      String.join (lines.map (deltaOfLine mode dec)) := by
  unfold streamResponseText producerRun
  rw [producerRunFrom_text]
  exact strEmpty_app _

/-! ## Claim C6 -/

/-- Claim C6: when the unmarshalled usage has `TotalTokens = 0`, `Handler`
returns the usage `{promptTokens, count(lastChoiceText, model),
promptTokens + count(lastChoiceText, model)}` computed from the original
pre-injection last-choice text (so fixed-content injection never alters
it, whatever `fixedContent` is); when the upstream total is non-zero, the
upstream usage is returned verbatim. -/
theorem c6_usage_accounting (sc : HMessage → String) (ms : String → Option String)
    (ct : String → String → Int) (statusCode : Int)
    (headers : List (String × List String)) (promptTokens : Int)
    (model fixedContent : String) (tr : SlimTextResponse)
    (_herr : tr.error.type = "")
    (hok : (handler sc ms ct statusCode headers promptTokens model
      fixedContent tr).1.err = none) :
    (tr.usage.totalTokens = 0 →
      (handler sc ms ct statusCode headers promptTokens model fixedContent tr).1.usage =
        some { promptTokens := promptTokens
               completionTokens := ct (lastChoiceText sc tr.choices) model
               totalTokens := promptTokens + ct (lastChoiceText sc tr.choices) model }) ∧
    (tr.usage.totalTokens ≠ 0 →
      (handler sc ms ct statusCode headers promptTokens model fixedContent tr).1.usage =
        some tr.usage) := by
  have hp := handler_ok_parts sc ms ct statusCode headers promptTokens model
    fixedContent tr hok
  constructor
  · intro h0
    rw [hp.2, if_pos h0]
  · intro h0
    rw [hp.2, if_neg h0]

/-- Witness for claim C6: zero upstream total with non-empty fixed
content; the recomputed usage uses the pre-injection (empty) last-choice
text. -/
theorem c6_witness :
    (handler (fun m => m.content) (fun s => some s) (fun _ _ => (7 : Int)) 200
      [] 3 "gpt" "ad"
      { choices := []
        usage := { promptTokens := 0, completionTokens := 0, totalTokens := 0 }
        error := { type := "", message := "" } }).1.usage =
      some { promptTokens := 3
             completionTokens := 7
             totalTokens := 3 + 7 } :=
  (c6_usage_accounting (fun m => m.content) (fun s => some s) (fun _ _ => (7 : Int))
    200 [] 3 "gpt" "ad"
    { choices := []
      usage := { promptTokens := 0, completionTokens := 0, totalTokens := 0 }
      error := { type := "", message := "" } }
    (by decide) (by decide)).1 (by decide)

/-! ## Claim C7 -/

/-- Claim C7: a body carrying a non-empty `Error.Type` is propagated as an
upstream error paired with the original HTTP status code, with nil usage
and empty response text, and nothing is written to the client (no
injection, no usage computation, no body write). -/
theorem c7_upstream_error (sc : HMessage → String) (ms : String → Option String)
    (ct : String → String → Int) (statusCode : Int)
    (headers : List (String × List String)) (promptTokens : Int)
    (model fixedContent : String) (tr : SlimTextResponse)
    (h : tr.error.type ≠ "") :
    handler sc ms ct statusCode headers promptTokens model fixedContent tr =
      ({ err := some { error := tr.error, statusCode := statusCode }
         usage := none, text := "" }, none) := by
  unfold handler
  rw [if_pos h]

/-- Witness for claim C7 at a concrete upstream error body. -/
theorem c7_witness :
    handler (fun m => m.content) (fun s => some s) (fun _ _ => (0 : Int)) 502
      [("K", ["v1", "v2"])] 3 "gpt" "ad"
      { choices := []
        usage := { promptTokens := 1, completionTokens := 2, totalTokens := 3 }
        error := { type := "bad", message := "boom" } } =
      ({ err := some { error := { type := "bad", message := "boom" }
                       statusCode := 502 }
         usage := none, text := "" }, none) :=
  c7_upstream_error (fun m => m.content) (fun s => some s) (fun _ _ => (0 : Int))
    502 [("K", ["v1", "v2"])] 3 "gpt" "ad"
    { choices := []
      usage := { promptTokens := 1, completionTokens := 2, totalTokens := 3 }
      error := { type := "bad", message := "boom" } }
    (by decide)

/-! ## Claim C8 -/

/-- Claim C8: on the successful non-streaming path the client write
carries the original upstream status code, the first value of every
upstream header, and the modified body that is re-serialized — the body
whose usage is exactly the usage `Handler` returns. -/
theorem c8_success_write (sc : HMessage → String) (ms : String → Option String)
    (ct : String → String → Int) (statusCode : Int)
    (headers : List (String × List String)) (promptTokens : Int)
    (model fixedContent : String) (tr : SlimTextResponse) (w : ClientWrite)
    (hw : (handler sc ms ct statusCode headers promptTokens model
      fixedContent tr).2 = some w) :
    w.status = statusCode ∧
    w.headers = headers.map (fun kv => (kv.1, kv.2.headD "")) ∧
    (handler sc ms ct statusCode headers promptTokens model fixedContent tr).1.usage =
      some w.body.usage := by
  unfold handler at hw ⊢
  by_cases herr : tr.error.type ≠ ""
  · rw [if_pos herr] at hw
    exact Option.noConfusion hw
  · rw [if_neg herr] at hw ⊢
    cases hinj : injectedResponse sc ms fixedContent tr with
    | none =>
      rw [hinj] at hw
      exact Option.noConfusion hw
    | some tr1 =>
      rw [hinj] at hw
      have hW := Option.some.inj hw
      refine ⟨?_, ?_, ?_⟩ <;> rw [← hW]

/-- Witness for claim C8 at a concrete successful relay. -/
theorem c8_witness :
    ({ status := 201
       headers := [("A", "x"), ("B", "y")]
       body := { choices := []
                 usage := { promptTokens := 1, completionTokens := 2, totalTokens := 3 }
                 error := { type := "", message := "" } } } : ClientWrite).status = 201 ∧
    ({ status := 201
       headers := [("A", "x"), ("B", "y")]
       body := { choices := []
                 usage := { promptTokens := 1, completionTokens := 2, totalTokens := 3 }
                 error := { type := "", message := "" } } } : ClientWrite).headers =
      [("A", ["x", "x2"]), ("B", ["y"])].map (fun kv => (kv.1, kv.2.headD "")) ∧
    (handler (fun m => m.content) (fun s => some s) (fun _ _ => (0 : Int)) 201
      [("A", ["x", "x2"]), ("B", ["y"])] 1 "gpt" ""
      { choices := []
        usage := { promptTokens := 1, completionTokens := 2, totalTokens := 3 }
        error := { type := "", message := "" } }).1.usage =
      some ({ status := 201
              headers := [("A", "x"), ("B", "y")]
              body := { choices := []
                        usage := { promptTokens := 1, completionTokens := 2, totalTokens := 3 }
                        error := { type := "", message := "" } } } : ClientWrite).body.usage :=
  c8_success_write (fun m => m.content) (fun s => some s) (fun _ _ => (0 : Int)) 201
    [("A", ["x", "x2"]), ("B", ["y"])] 1 "gpt" ""
    { choices := []
      usage := { promptTokens := 1, completionTokens := 2, totalTokens := 3 }
      error := { type := "", message := "" } }
    { status := 201
      headers := [("A", "x"), ("B", "y")]
      body := { choices := []
                usage := { promptTokens := 1, completionTokens := 2, totalTokens := 3 }
                error := { type := "", message := "" } } }
    (by decide)

/-! ## Claim C9 -/

/-- Claim C9: with empty fixed content and a non-zero upstream total
token count, the body written to the client is structurally identical to
the unmarshalled upstream body — in particular its choices and its usage
are exactly upstream's (the only byte-level differences of the
re-serialization are field ordering, which the structural model
abstracts). -/
theorem c9_roundtrip (sc : HMessage → String) (ms : String → Option String)
    (ct : String → String → Int) (statusCode : Int)
    (headers : List (String × List String)) (promptTokens : Int)
    (model : String) (tr : SlimTextResponse)
    (herr : tr.error.type = "") (htot : tr.usage.totalTokens ≠ 0) :
    handler sc ms ct statusCode headers promptTokens model "" tr =
      ({ err := none, usage := some tr.usage
         text := lastChoiceText sc tr.choices },
       some { status := statusCode
              headers := headers.map (fun kv => (kv.1, kv.2.headD ""))
              body := tr }) := by
  have hbf : backfillUsage ct promptTokens model (lastChoiceText sc tr.choices) tr = tr := by
    unfold backfillUsage
    rw [if_neg htot]
  unfold handler
  rw [if_neg (show ¬ tr.error.type ≠ "" from fun hne => hne herr),
      injectedResponse_empty]
  simp [hbf]

/-- Witness for claim C9 at a concrete body. -/
theorem c9_witness :
    handler (fun m => m.content) (fun s => some s) (fun _ _ => (0 : Int)) 200
      [("A", ["x"])] 5 "gpt" ""
      { choices := [{ index := 0
                      message := { role := "assistant", content := "hi" }
                      finishReason := "stop" }]
        usage := { promptTokens := 1, completionTokens := 2, totalTokens := 3 }
        error := { type := "", message := "" } } =
      ({ err := none
         usage := some { promptTokens := 1, completionTokens := 2, totalTokens := 3 }
         text := lastChoiceText (fun m => m.content)
           [{ index := 0
              message := { role := "assistant", content := "hi" }
              finishReason := "stop" }] },
       some { status := 200
              headers := [("A", ["x"])].map (fun kv => (kv.1, kv.2.headD ""))
              body := { choices := [{ index := 0
                                      message := { role := "assistant", content := "hi" }
                                      finishReason := "stop" }]
                        usage := { promptTokens := 1, completionTokens := 2, totalTokens := 3 }
                        error := { type := "", message := "" } } }) :=
  c9_roundtrip (fun m => m.content) (fun s => some s) (fun _ _ => (0 : Int)) 200
    [("A", ["x"])] 5 "gpt"
    { choices := [{ index := 0
                    message := { role := "assistant", content := "hi" }
                    finishReason := "stop" }]
      usage := { promptTokens := 1, completionTokens := 2, totalTokens := 3 }
      error := { type := "", message := "" } }
    (by decide) (by decide)

/-! ## Claim C10 -/

/-- Claim C10 (non-interference of injection with the returned values):
for a fixed upstream input, the accumulated text returned by
`StreamHandler` and the response text and usage returned by `Handler` are
the same for any two values of the fixed content, provided both `Handler`
runs complete without a fatal error — injection only changes the bytes
written to the client. -/
theorem c10_injection_noninterference (mode : RelayMode) (dec : Decoders)
    (lines : List String) (fc1 fc2 : String) (sc : HMessage → String)
    (ms : String → Option String) (ct : String → String → Int)
    (statusCode : Int) (headers : List (String × List String))
    (promptTokens : Int) (model : String) (tr : SlimTextResponse)
    (h1 : (handler sc ms ct statusCode headers promptTokens model fc1 tr).1.err = none)
    (h2 : (handler sc ms ct statusCode headers promptTokens model fc2 tr).1.err = none) :
    streamResponseText mode dec fc1 lines = streamResponseText mode dec fc2 lines ∧
    (handler sc ms ct statusCode headers promptTokens model fc1 tr).1.text =
      (handler sc ms ct statusCode headers promptTokens model fc2 tr).1.text ∧
    (handler sc ms ct statusCode headers promptTokens model fc1 tr).1.usage =
      (handler sc ms ct statusCode headers promptTokens model fc2 tr).1.usage := by
  have hp1 := handler_ok_parts sc ms ct statusCode headers promptTokens model fc1 tr h1
  have hp2 := handler_ok_parts sc ms ct statusCode headers promptTokens model fc2 tr h2
  refine ⟨?_, ?_, ?_⟩
  · rw [streamResponseText_eq_join, streamResponseText_eq_join]
  · rw [hp1.1, hp2.1]
  · rw [hp1.2, hp2.2]

/-- Witness for claim C10 with fixed contents `"a"` and `"b"`. -/
theorem c10_witness :
    streamResponseText RelayMode.chatCompletions testDec "a" ["data: h1"] =
      streamResponseText RelayMode.chatCompletions testDec "b" ["data: h1"] ∧
    (handler (fun m => m.content) (fun s => some s) (fun _ _ => (0 : Int)) 200
      [] 1 "gpt" "a"
      { choices := []
        usage := { promptTokens := 0, completionTokens := 0, totalTokens := 0 }
        error := { type := "", message := "" } }).1.text =
      (handler (fun m => m.content) (fun s => some s) (fun _ _ => (0 : Int)) 200
        [] 1 "gpt" "b"
        { choices := []
          usage := { promptTokens := 0, completionTokens := 0, totalTokens := 0 }
          error := { type := "", message := "" } }).1.text ∧
    (handler (fun m => m.content) (fun s => some s) (fun _ _ => (0 : Int)) 200
      [] 1 "gpt" "a"
      { choices := []
        usage := { promptTokens := 0, completionTokens := 0, totalTokens := 0 }
        error := { type := "", message := "" } }).1.usage =
      (handler (fun m => m.content) (fun s => some s) (fun _ _ => (0 : Int)) 200
        [] 1 "gpt" "b"
        { choices := []
          usage := { promptTokens := 0, completionTokens := 0, totalTokens := 0 }
          error := { type := "", message := "" } }).1.usage :=
  c10_injection_noninterference RelayMode.chatCompletions testDec ["data: h1"]
    "a" "b" (fun m => m.content) (fun s => some s) (fun _ _ => (0 : Int)) 200
    [] 1 "gpt"
    { choices := []
      usage := { promptTokens := 0, completionTokens := 0, totalTokens := 0 }
      error := { type := "", message := "" } }
    (by decide) (by decide)

end ChatApi
